import Mathlib

/-!
Verification model of the elevator invoice bot's calculation engine.

The definitions below are a shallow embedding of:
  * `src/db/database.py`   — the `products` table row shape and `get_products`;
  * `src/logic/calculator.py` — `InvoiceCalculator.calculate_invoice`,
    `_calculate_quantity`, `_get_final_name`, `validate_floors`.

SQLite REAL columns (`factor`, `base_add`) are modelled as rationals,
nullable columns as `Option`, and Python `int()` truncation explicitly.
-/

namespace ElevatorBot

/-- A row of the `products` table (`src/db/database.py`, `CREATE TABLE products`).
Nullable columns are `Option`; `factor` and `base_add` are REAL, modelled as `ℚ`. -/
structure Product where
  id : Int
  code : Option String
  name : String
  unit : String
  price : Int
  system : String
  type : String
  factor : Option ℚ
  base_add : Option ℚ
  name_pattern : Option String
  stops_offset : Option Int
  category : Option String
  is_active : Int
  min_floors : Option Int
  max_floors : Option Int
deriving Repr, DecidableEq

/-- Python truthiness of an optional string value: `None` and `""` are falsy. -/
def strTruthy : Option String → Bool
  | none => false
  | some s => !(s == "")

/-- The WHERE clause built by `DatabaseManager.get_products`:
`is_active = ?`, then `AND (system = ? OR system = 'common')` only when
`system_type` is truthy, then the `min_floors`/`max_floors` NULL-or-bound
conditions only when `floors is not None`. -/
def product_matches (system_type : Option String) (is_active : Int)
    (floors : Option Int) (p : Product) : Bool :=
  (p.is_active == is_active)
  && (!(strTruthy system_type) || (p.system == system_type.getD "" || p.system == "common"))
  && (match floors with
      | none => true
      | some f =>
        (match p.min_floors with
         | none => true
         | some m => decide (m ≤ f))
        && (match p.max_floors with
            | none => true
            | some M => decide (f ≤ M)))

/-- Model of `DatabaseManager.get_products`: the catalog is modelled as the list of rows
in retrieval order; the SELECT keeps exactly the rows matching the filters,
preserving order, with no dedup. -/
def get_products (catalog : List Product) (system_type : Option String)
    (is_active : Int) (floors : Option Int) : List Product :=
  catalog.filter (product_matches system_type is_active floors)

/-- Python `int()` applied to a rational: truncation toward zero
(`int(2.5) = 2`, `int(-2.5) = -2`). -/
def pyInt (q : ℚ) : Int :=
  q.num.tdiv q.den

/-- Model of `InvoiceCalculator._calculate_quantity`: dispatch on the `type` string;
`factor` and `base_add` are NULL-coalesced to 0 (`product['factor'] or 0`). -/
def calculate_quantity (p : Product) (floors : Int) : ℚ :=
  let factor : ℚ := p.factor.getD 0
  let base_add : ℚ := p.base_add.getD 0
  if p.type == "fixed" then
    if factor > 0 then factor else 1
  else if p.type == "linear" then
    factor * (floors : ℚ) + base_add
  else if p.type == "dynamic_name" then
    if factor > 0 then factor * (floors : ℚ) + base_add else 1
  else
    1

/-! Model of Python `string.Template.safe_substitute`.

`_get_final_name` substitutes via `Template(pattern).safe_substitute(...)`.
CPython's `Template` scans for `$$` (escaped delimiter), `$identifier`,
`${identifier}` with `identifier = [_A-Za-z][_A-Za-z0-9]*`; `safe_substitute`
replaces known keys, leaves an unknown `$identifier`/`${identifier}` literally,
and leaves a `$` not starting any of these forms literally as well. -/

/-- Opening brace character (written by code point to keep it out of literals). -/
def lbrace : Char := Char.ofNat 123

/-- Closing brace character. -/
def rbrace : Char := Char.ofNat 125

/-- First character of a `Template` identifier: `[_A-Za-z]`. -/
def isIdStart (c : Char) : Bool :=
  c == '_' || ('a' ≤ c && c ≤ 'z') || ('A' ≤ c && c ≤ 'Z')

/-- Subsequent character of a `Template` identifier: `[_A-Za-z0-9]`. -/
def isIdChar (c : Char) : Bool :=
  isIdStart c || ('0' ≤ c && c ≤ '9')

/-- Split off the longest run of identifier characters (the greedy `*` of the
identifier regex). -/
def takeId : List Char → List Char × List Char
  | [] => ([], [])
  | c :: cs =>
    if isIdChar c then
      let p := takeId cs
      (c :: p.1, p.2)
    else
      ([], c :: cs)

/-- One pass of `safe_substitute` over the template text. `fuel` bounds the
recursion; every step consumes at least one character, so `fuel = length`
suffices, which is how `safeSubstitute` instantiates it. -/
def substLoop (m : String → Option String) : Nat → List Char → List Char
  | 0, l => l
  | _, [] => []
  | fuel + 1, c :: rest =>
    if c == '$' then
      match rest with
      | [] => [c]
      | d :: rest2 =>
        if d == '$' then
          '$' :: substLoop m fuel rest2
        else if d == lbrace then
          (match rest2 with
           | [] => c :: substLoop m fuel rest
           | e :: es =>
             if isIdStart e then
               let p := takeId es
               let ident := String.mk (e :: p.1)
               (match p.2 with
                | f :: r =>
                  if f == rbrace then
                    (match m ident with
                     | some v => v.data ++ substLoop m fuel r
                     | none => c :: d :: ((e :: p.1) ++ (f :: substLoop m fuel r)))
                  else
                    c :: substLoop m fuel rest
                | [] => c :: substLoop m fuel rest)
             else
               c :: substLoop m fuel rest)
        else if isIdStart d then
          let p := takeId rest2
          let ident := String.mk (d :: p.1)
          (match m ident with
           | some v => v.data ++ substLoop m fuel p.2
           | none => c :: d :: (p.1 ++ substLoop m fuel p.2))
        else
          c :: substLoop m fuel rest
    else
      c :: substLoop m fuel rest

/-- Model of `Template(s).safe_substitute(mapping)`. -/
def safeSubstitute (m : String → Option String) (s : String) : String :=
  String.mk (substLoop m s.data.length s.data)

/-- The keyword arguments passed to `safe_substitute` in `_get_final_name`:
`stops=actual_stops, floors=floors, N=floors`, each converted by `str()`. -/
def subst_mapping (floors actual_stops : Int) : String → Option String := fun k =>
  if k == "stops" then some (toString actual_stops)
  else if k == "floors" then some (toString floors)
  else if k == "N" then some (toString floors)
  else none

/-- Model of `InvoiceCalculator._get_final_name`: dynamic naming only when
`type == 'dynamic_name'` and `name_pattern` is truthy (present and non-empty);
`stops_offset` is NULL-coalesced to 0; otherwise the base name. The
`try/except` around `safe_substitute` is modelled by the substitution being a
total function. -/
def get_final_name (p : Product) (floors : Int) : String :=
  if p.type == "dynamic_name" && strTruthy p.name_pattern then
    let pat := p.name_pattern.getD ""
    let stops_offset := p.stops_offset.getD 0
    let actual_stops := floors + stops_offset
    safeSubstitute (subst_mapping floors actual_stops) pat
  else
    p.name

/-! Invoice assembly. -/

/-- One line item produced inside the `calculate_invoice` loop. -/
structure InvoiceItem where
  product_id : Int
  name : String
  unit : String
  quantity : ℚ
  unit_price : Int
  total_price : Int
deriving Repr, DecidableEq

/-- The dictionary returned by `calculate_invoice`. -/
structure InvoiceResult where
  items : List InvoiceItem
  total_price : Int
deriving Repr, DecidableEq

/-- Body of the `for product in products` loop: quantity, final name, and
`item_total = int(quantity * product['price'])`. -/
def calc_item (p : Product) (floors : Int) : InvoiceItem :=
  let quantity := calculate_quantity p floors
  let final_name := get_final_name p floors
  let item_total := pyInt (quantity * (p.price : ℚ))
  { product_id := p.id
  , name := final_name
  , unit := p.unit
  , quantity := quantity
  , unit_price := p.price
  , total_price := item_total }

/-- Model of `InvoiceCalculator.calculate_invoice`: fetch active rules matching the
request, build items in retrieval order, accumulate `total_price` starting
from 0. -/
def calculate_invoice (catalog : List Product) (floors : Int)
    (system_type : String) : InvoiceResult :=
  let products := get_products catalog (some system_type) 1 (some floors)
  let items := products.map (fun p => calc_item p floors)
  { items := items
  , total_price := items.foldl (fun acc it => acc + it.total_price) 0 }

/-! Validation helpers. -/

/-- A Python value arriving at `validate_floors` (its `floors` parameter is
annotated `int` but unchecked; `isinstance(floors, int)` does the real test). -/
inductive PyValue where
  | int (n : Int)
  | float (q : ℚ)
  | str (s : String)
deriving Repr, DecidableEq

/-- Model of `InvoiceCalculator.validate_floors`: `(is_valid, error_message)`. -/
def validate_floors (v : PyValue) : Bool × String :=
  match v with
  | .int n =>
    if n < 1 then (false, "تعداد توقف باید حداقل ۱ باشد")
    else if n > 100 then (false, "تعداد توقف نمی‌تواند بیش از ۱۰۰ باشد")
    else (true, "")
  | _ => (false, "تعداد توقف باید یک عدد صحیح باشد")

/-- Model of `InvoiceCalculator.validate_system_type`. -/
def validate_system_type (system_type : String) : Bool × String :=
  if system_type == "hydraulic" || system_type == "gearless" then (true, "")
  else (false, "نوع سیستم باید یکی از ['hydraulic', 'gearless'] باشد")

/-- The gate in `BotHandlers.floors` (`src/bot/handlers.py`): the handler calls
`validate_floors` and, when it reports invalid, replies with the reason and
returns to the input state without invoking `calculate_invoice`; only a valid
count reaches the calculation. -/
def handle_floors (catalog : List Product) (n : Int) (system_type : String) :
    Except String InvoiceResult :=
  let v := validate_floors (PyValue.int n)
  if v.1 then Except.ok (calculate_invoice catalog n system_type)
  else Except.error v.2

/-! Sample catalog rows used to instantiate the theorems below. -/

/-- Sample linear rule, shaped like the seeded travelling-cable row
(4 units per stop plus a constant 5). -/
def cableRule : Product :=
  { id := 1, code := none, name := "Cable", unit := "meter", price := 50000
  , system := "hydraulic", type := "linear", factor := some 4, base_add := some 5
  , name_pattern := none, stops_offset := none, category := none, is_active := 1
  , min_floors := none, max_floors := none }

/-- Sample fixed rule with a quantity override (80 liters of fluid). -/
def fluidRule : Product :=
  { id := 2, code := none, name := "Fluid", unit := "liter", price := 2
  , system := "hydraulic", type := "fixed", factor := some 80, base_add := some 0
  , name_pattern := none, stops_offset := none, category := none, is_active := 1
  , min_floors := none, max_floors := none }

/-- Sample fixed rule with `factor = 0`. -/
def zeroFixedRule : Product :=
  { id := 3, code := none, name := "Panel", unit := "piece", price := 7
  , system := "gearless", type := "fixed", factor := some 0, base_add := some 0
  , name_pattern := none, stops_offset := none, category := none, is_active := 1
  , min_floors := none, max_floors := none }

/-- Sample dynamic-name rule with the pattern from the specification's example,
parametrized by `stops_offset`. -/
def stopsRule (off : Int) : Product :=
  { id := 4, code := none, name := "Door", unit := "piece", price := 1000
  , system := "common", type := "dynamic_name", factor := some 1, base_add := some 0
  , name_pattern := some "X $\x7bstops\x7d stops", stops_offset := some off
  , category := none, is_active := 1, min_floors := none, max_floors := none }

/-- Sample dynamic-name rule whose pattern references a mistyped key
(`stps` instead of `stops`). -/
def badPatternRule : Product :=
  { id := 5, code := none, name := "Base", unit := "piece", price := 10
  , system := "common", type := "dynamic_name", factor := some 0, base_add := some 0
  , name_pattern := some "X $\x7bstps\x7d stops", stops_offset := some 0
  , category := none, is_active := 1, min_floors := none, max_floors := none }

/-- Sample rule restricted to at least 10 floors. -/
def boundedRule : Product :=
  { id := 6, code := none, name := "Rail", unit := "set", price := 3
  , system := "common", type := "fixed", factor := some 1, base_add := some 0
  , name_pattern := none, stops_offset := none, category := none, is_active := 1
  , min_floors := some 10, max_floors := none }

/-- Sample gearless fixed rule. -/
def gearRule : Product :=
  { id := 7, code := none, name := "Motor", unit := "piece", price := 11
  , system := "gearless", type := "fixed", factor := some 1, base_add := some 0
  , name_pattern := none, stops_offset := none, category := none, is_active := 1
  , min_floors := none, max_floors := none }

/-- Sample common fixed rule. -/
def commonRule : Product :=
  { id := 8, code := none, name := "Button", unit := "piece", price := 13
  , system := "common", type := "fixed", factor := some 1, base_add := some 0
  , name_pattern := none, stops_offset := none, category := none, is_active := 1
  , min_floors := none, max_floors := none }

/-- Sample linear rule with a negative fractional slope, giving the quantity
`-5/2` at 5 floors. -/
def negRule : Product :=
  { id := 9, code := none, name := "Adjustment", unit := "piece", price := 1
  , system := "hydraulic", type := "linear", factor := some (-(1:ℚ)/2), base_add := some 0
  , name_pattern := none, stops_offset := none, category := none, is_active := 1
  , min_floors := none, max_floors := none }

/-! Theorems settling the claims. -/

/-- Accumulating `total_price += item_total` over the loop equals the exact
integer sum of the item totals. -/
theorem foldl_total_eq_sum (l : List InvoiceItem) (a : Int) :
    l.foldl (fun acc it => acc + it.total_price) a
      = a + (l.map (fun it => it.total_price)).sum := by
  induction l generalizing a with
  | nil => simp
  | cons x xs ih => simp [List.foldl_cons, ih, List.sum_cons]; omega

/-- C1: for every catalog state, `floors` in `1..100` and a
hydraulic/gearless request, every line item built by `calculate_invoice`
satisfies `total_price = int(quantity * unit_price)` (Python integer
truncation), and the invoice's `total_price` is the exact integer sum of the
item totals. -/
theorem C1_invoice_totals (catalog : List Product) (floors : Int) (system_type : String)
    (h1 : 1 ≤ floors) (h2 : floors ≤ 100)
    (h3 : system_type = "hydraulic" ∨ system_type = "gearless") :
    (∀ it ∈ (calculate_invoice catalog floors system_type).items,
        it.total_price = pyInt (it.quantity * (it.unit_price : ℚ)))
      ∧ (calculate_invoice catalog floors system_type).total_price
          = ((calculate_invoice catalog floors system_type).items.map
              (fun it => it.total_price)).sum := by
  refine ⟨?_, ?_⟩
  · intro it hit
    simp only [calculate_invoice, List.mem_map] at hit
    obtain ⟨p, hp, rfl⟩ := hit
    rfl
  · simp only [calculate_invoice]
    rw [foldl_total_eq_sum]
    simp

/-- Witness for C1 at a concrete catalog, 5 floors, hydraulic. -/
theorem C1_invoice_totals_witness :
    (∀ it ∈ (calculate_invoice [cableRule, fluidRule] 5 "hydraulic").items,
        it.total_price = pyInt (it.quantity * (it.unit_price : ℚ)))
      ∧ (calculate_invoice [cableRule, fluidRule] 5 "hydraulic").total_price
          = ((calculate_invoice [cableRule, fluidRule] 5 "hydraulic").items.map
              (fun it => it.total_price)).sum :=
  C1_invoice_totals [cableRule, fluidRule] 5 "hydraulic" (by decide) (by decide)
    (Or.inl rfl)

/-- Applicability of a rule as the specification words it: active, system
equal to the requested one or `common`, and the inclusive floor-range bounds
satisfied when set. -/
def claim_applicable (system_type : String) (floors : Int) (p : Product) : Bool :=
  (p.is_active == 1)
  && (p.system == system_type || p.system == "common")
  && (match p.min_floors with
      | none => true
      | some m => decide (m ≤ floors))
  && (match p.max_floors with
      | none => true
      | some M => decide (floors ≤ M))

/-- C2: for a hydraulic/gearless request the rules the calculator evaluates
are exactly the catalog rows satisfying the spec's applicability predicate, in
retrieval order with no re-sorting and no dedup (the items are the one-to-one
ordered image of the filtered catalog); a rule with `min_floors = 10` is never
retrieved at `floors = 9` and is retrieved at `floors = 10` whenever its other
filters match. -/
theorem C2_applicable_rules (catalog : List Product) (floors : Int) (st : String)
    (h : st = "hydraulic" ∨ st = "gearless") :
    get_products catalog (some st) 1 (some floors)
        = catalog.filter (claim_applicable st floors)
      ∧ (calculate_invoice catalog floors st).items
          = (catalog.filter (claim_applicable st floors)).map (fun p => calc_item p floors)
      ∧ (∀ p : Product, p.min_floors = some 10 →
          p ∉ get_products catalog (some st) 1 (some 9))
      ∧ (∀ p : Product, p ∈ catalog → p.min_floors = some 10 → p.is_active = 1 →
          (p.system = st ∨ p.system = "common") →
          (∀ M : Int, p.max_floors = some M → (10:Int) ≤ M) →
          p ∈ get_products catalog (some st) 1 (some 10)) := by
  have hne : strTruthy (some st) = true := by
    rcases h with rfl | rfl <;> rfl
  have key : ∀ (fl : Int) (p : Product),
      product_matches (some st) 1 (some fl) p = claim_applicable st fl p := by
    intro fl p
    simp only [product_matches, claim_applicable, hne, Option.getD_some, Bool.not_true,
      Bool.false_or, Bool.and_assoc]
  have hfilter : ∀ fl : Int,
      get_products catalog (some st) 1 (some fl)
        = catalog.filter (claim_applicable st fl) := by
    intro fl
    exact List.filter_congr (fun p _ => key fl p)
  refine ⟨hfilter floors, ?_, ?_, ?_⟩
  · simp only [calculate_invoice]
    rw [hfilter floors]
  · intro p hmin hp
    rw [get_products, List.mem_filter] at hp
    rcases hp with ⟨-, hmatch⟩
    simp [product_matches, hmin] at hmatch
  · intro p hp hmin hact hsys hmax
    rw [get_products, List.mem_filter]
    refine ⟨hp, ?_⟩
    simp only [product_matches, hne, Bool.not_true, Bool.false_or, hmin, hact]
    cases hM : p.max_floors with
    | none => rcases hsys with h' | h' <;> simp [h']
    | some M =>
      have hle := hmax M hM
      rcases hsys with h' | h' <;> simp [h', hle]

/-- Witness for C2 at a concrete catalog and request. -/
theorem C2_applicable_rules_witness :
    get_products [cableRule, boundedRule] (some "hydraulic") 1 (some 5)
        = [cableRule, boundedRule].filter (claim_applicable "hydraulic" 5)
      ∧ (calculate_invoice [cableRule, boundedRule] 5 "hydraulic").items
          = ([cableRule, boundedRule].filter (claim_applicable "hydraulic" 5)).map
              (fun p => calc_item p 5)
      ∧ (∀ p : Product, p.min_floors = some 10 →
          p ∉ get_products [cableRule, boundedRule] (some "hydraulic") 1 (some 9))
      ∧ (∀ p : Product, p ∈ [cableRule, boundedRule] → p.min_floors = some 10 →
          p.is_active = 1 → (p.system = "hydraulic" ∨ p.system = "common") →
          (∀ M : Int, p.max_floors = some M → (10:Int) ≤ M) →
          p ∈ get_products [cableRule, boundedRule] (some "hydraulic") 1 (some 10)) :=
  C2_applicable_rules [cableRule, boundedRule] 5 "hydraulic" (Or.inl rfl)

/-- Quantity of a `linear` rule, read off from the second branch of
`_calculate_quantity`. -/
theorem calculate_quantity_linear (p : Product) (fl : Int) (h : p.type = "linear") :
    calculate_quantity p fl = p.factor.getD 0 * (fl : ℚ) + p.base_add.getD 0 := by
  simp [calculate_quantity, h]

/-- C3: a `linear` rule's quantity is `factor * floors + base_add` (so the
spec's example `factor = 4, base_add = 5, floors = 5` yields `25`, stated on
`cableRule`); a `dynamic_name` rule uses the identical formula when
`factor > 0` and `1.0` otherwise; any other/unknown kind yields `1.0`
(the evaluator is a total function, so it never fails). -/
theorem C3_quantity_formulas (p : Product) (floors : Int) :
    (p.type = "linear" →
        calculate_quantity p floors
          = p.factor.getD 0 * (floors : ℚ) + p.base_add.getD 0)
      ∧ (p.type = "dynamic_name" →
          calculate_quantity p floors
            = (if p.factor.getD 0 > 0 then
                 p.factor.getD 0 * (floors : ℚ) + p.base_add.getD 0
               else 1))
      ∧ (p.type ≠ "fixed" → p.type ≠ "linear" → p.type ≠ "dynamic_name" →
          calculate_quantity p floors = 1)
      ∧ calculate_quantity cableRule 5 = 25 := by
  refine ⟨calculate_quantity_linear p floors, ?_, ?_, ?_⟩
  · intro h; simp [calculate_quantity, h]
  · intro h1 h2 h3; simp [calculate_quantity, h1, h2, h3]
  · rw [calculate_quantity_linear cableRule 5 rfl]
    norm_num [cableRule]

/-- Witness for C3: the spec's linear example evaluates to 25. -/
theorem C3_quantity_formulas_witness :
    calculate_quantity cableRule 5 = 25 :=
  (C3_quantity_formulas cableRule 5).2.2.2

/-- C4: a `fixed` rule's quantity is `factor` when `factor > 0` and `1.0`
otherwise, independent of the floor count; in particular `factor = 0` yields
`1.0` and `factor = 80` yields `80`. -/
theorem C4_fixed_quantity (p : Product) (floors floors2 : Int)
    (h : p.type = "fixed") :
    calculate_quantity p floors
        = (if p.factor.getD 0 > 0 then p.factor.getD 0 else 1)
      ∧ calculate_quantity p floors = calculate_quantity p floors2
      ∧ (∀ f : Int, calculate_quantity zeroFixedRule f = 1)
      ∧ (∀ f : Int, calculate_quantity fluidRule f = 80) := by
  refine ⟨by simp [calculate_quantity, h], by simp [calculate_quantity, h], ?_, ?_⟩
  · intro f; simp [calculate_quantity, zeroFixedRule]
  · intro f; simp [calculate_quantity, fluidRule]

/-- Witness for C4 at the 80-liter fluid rule and the zero-factor rule. -/
theorem C4_fixed_quantity_witness :
    calculate_quantity fluidRule 7
        = (if fluidRule.factor.getD 0 > 0 then fluidRule.factor.getD 0 else 1)
      ∧ calculate_quantity fluidRule 7 = calculate_quantity fluidRule 99
      ∧ (∀ f : Int, calculate_quantity zeroFixedRule f = 1)
      ∧ (∀ f : Int, calculate_quantity fluidRule f = 80) :=
  C4_fixed_quantity fluidRule 7 99 rfl

/-- C5: a `dynamic_name` rule with a present (non-empty) pattern gets its
display name by safe substitution of `stops = floors + stops_offset`,
`floors = floors`, `N = floors` into the pattern; on the pattern
`"X ${stops} stops"` this yields `"X " ++ str(floors + offset) ++ " stops"`
for every floor count and offset; a placeholder outside
`{stops, floors, N}` (here `$\x7bfoo\x7d`-style `foo`) is left literally in the output; every
other rule (wrong kind, or absent/empty pattern) keeps its base name. -/
theorem C5_dynamic_naming (p : Product) (floors off : Int) :
    (p.type = "dynamic_name" → strTruthy p.name_pattern = true →
        get_final_name p floors
          = safeSubstitute (subst_mapping floors (floors + p.stops_offset.getD 0))
              (p.name_pattern.getD ""))
      ∧ (p.type = "dynamic_name" → p.name_pattern = some "X $\x7bstops\x7d stops" →
          p.stops_offset = some off →
          get_final_name p floors = "X " ++ toString (floors + off) ++ " stops")
      ∧ (p.type = "dynamic_name" → p.name_pattern = some "A $\x7bfoo\x7d and $stops." →
          p.stops_offset = some off →
          get_final_name p floors = "A $\x7bfoo\x7d and " ++ toString (floors + off) ++ ".")
      ∧ (p.type ≠ "dynamic_name" ∨ strTruthy p.name_pattern = false →
          get_final_name p floors = p.name) := by
  refine ⟨?_, ?_, ?_, ?_⟩
  · intro h1 h2
    unfold get_final_name
    rw [h1, h2]
    rfl
  · intro h1 h2 h3
    unfold get_final_name
    rw [h1, h2, h3]
    rfl
  · intro h1 h2 h3
    unfold get_final_name
    rw [h1, h2, h3]
    rfl
  · intro h
    rcases h with h | h <;> simp [get_final_name, h]

/-- Witness for C5: the spec's example (`stops_offset = 1`, `floors = 5`)
yields `"X 6 stops"`. -/
theorem C5_dynamic_naming_witness :
    get_final_name (stopsRule 1) 5 = "X 6 stops" :=
  ((C5_dynamic_naming (stopsRule 1) 5 1).2.1 rfl rfl rfl).trans (by decide)

/-- C6 counterexample: on a rule whose pattern references the mistyped key
`stps`, the display name is not the base name `"Base"`, contradicting the
claim's fallback. -/
theorem C6_counterexample_no_fallback :
    get_final_name badPatternRule 5 ≠ badPatternRule.name := by decide

/-- C6 (amended): name evaluation is a total function (it never raises), and a
pattern referencing an undefined/mistyped key is kept with the unknown
placeholder left literally in the output — the result is the pattern text, not
the base name; the base name is used only when the pattern is absent/empty or
the kind is not `dynamic_name`. -/
theorem C6_amended_literal (p : Product) (floors : Int)
    (h1 : p.type = "dynamic_name")
    (h2 : p.name_pattern = some "X $\x7bstps\x7d stops") :
    get_final_name p floors = "X $\x7bstps\x7d stops" := by
  unfold get_final_name
  rw [h1, h2]
  rfl

/-- Witness for the amended C6 at the concrete mistyped-pattern rule. -/
theorem C6_amended_literal_witness :
    get_final_name badPatternRule 5 = "X $\x7bstps\x7d stops" :=
  C6_amended_literal badPatternRule 5 rfl rfl

/-- Validation verdict on an integer, characterized by the `1..100` range. -/
theorem validate_floors_int_true_iff (k : Int) :
    (validate_floors (PyValue.int k)).1 = true ↔ (1 ≤ k ∧ k ≤ 100) := by
  simp only [validate_floors]
  split_ifs with h1 h2 <;> simp <;> omega

/-- C7: floor validation accepts exactly the integers in `1..100` (so it
rejects non-integer input, everything below 1 and everything above 100); every
rejection carries a non-empty human-readable reason; the check is a total
function (it never throws); and on a rejected count the handler returns the
reason without attempting the calculation. -/
theorem C7_floor_validation (v : PyValue) (catalog : List Product) (n : Int)
    (st : String) :
    ((validate_floors v).1 = true ↔ ∃ k : Int, v = PyValue.int k ∧ 1 ≤ k ∧ k ≤ 100)
      ∧ ((validate_floors v).1 = false → (validate_floors v).2 ≠ "")
      ∧ (¬(1 ≤ n ∧ n ≤ 100) →
          handle_floors catalog n st
            = Except.error (validate_floors (PyValue.int n)).2) := by
  refine ⟨?_, ?_, ?_⟩
  · cases v with
    | int k =>
      rw [validate_floors_int_true_iff]
      constructor
      · intro hk; exact ⟨k, rfl, hk.1, hk.2⟩
      · rintro ⟨x, hx, hx1, hx2⟩
        cases hx
        exact ⟨hx1, hx2⟩
    | float q => simp [validate_floors]
    | str s => simp [validate_floors]
  · cases v with
    | int k =>
      simp only [validate_floors]
      split_ifs <;> simp
    | float q => simp [validate_floors]
    | str s => simp [validate_floors]
  · intro hno
    have hfalse : (validate_floors (PyValue.int n)).1 = false := by
      rcases hb : (validate_floors (PyValue.int n)).1 with _ | _
      · rfl
      · exact absurd ((validate_floors_int_true_iff n).mp hb) hno
    simp [handle_floors, hfalse]

/-- Witness for C7: accepts 1 and 100, rejects 0, 101 and a string, and the
handler does not calculate for 0. -/
theorem C7_floor_validation_witness :
    (validate_floors (PyValue.int 1)).1 = true
      ∧ (validate_floors (PyValue.int 100)).1 = true
      ∧ (validate_floors (PyValue.int 0)).1 = false
      ∧ (validate_floors (PyValue.int 101)).1 = false
      ∧ (validate_floors (PyValue.str "five")).1 = false
      ∧ handle_floors [] 0 "hydraulic"
          = Except.error (validate_floors (PyValue.int 0)).2 := by
  refine ⟨?_, ?_, by decide, by decide, by decide, ?_⟩
  · exact (C7_floor_validation (PyValue.int 1) [] 1 "hydraulic").1.mpr
      ⟨1, rfl, by decide, by decide⟩
  · exact (C7_floor_validation (PyValue.int 100) [] 100 "hydraulic").1.mpr
      ⟨100, rfl, by decide, by decide⟩
  · exact (C7_floor_validation (PyValue.int 0) [] 0 "hydraulic").2.2 (by decide)

/-- C8: the calculator is deterministic — two calls with identical catalog
state and identical `(floors, system_type)` produce identical results: the
same items in the same order with equal fields, and the same total. -/
theorem C8_idempotent (cat1 cat2 : List Product) (f1 f2 : Int) (s1 s2 : String)
    (hc : cat1 = cat2) (hf : f1 = f2) (hs : s1 = s2) :
    (calculate_invoice cat1 f1 s1).items = (calculate_invoice cat2 f2 s2).items
      ∧ (calculate_invoice cat1 f1 s1).total_price
          = (calculate_invoice cat2 f2 s2).total_price := by
  subst hc; subst hf; subst hs
  exact ⟨rfl, rfl⟩

/-- Witness for C8 at a concrete repeated call. -/
theorem C8_idempotent_witness :
    (calculate_invoice [cableRule] 5 "hydraulic").items
        = (calculate_invoice [cableRule] 5 "hydraulic").items
      ∧ (calculate_invoice [cableRule] 5 "hydraulic").total_price
          = (calculate_invoice [cableRule] 5 "hydraulic").total_price :=
  C8_idempotent [cableRule] [cableRule] 5 5 "hydraulic" "hydraulic" rfl rfl rfl

/-- The quantity `-5/2` in constructor form, so that `pyInt` and `⌊⌋` reduce. -/
def qneg : ℚ := ⟨-5, 2, by decide, by norm_num⟩

/-- C9: a linear rule with a negative factor yields a negative quantity; the
line total truncates toward zero (`int(-2.5) = -2`), which differs from the
floor (`⌊-5/2⌋ = -3`); the line total and the grand total are negative — no
clamping to zero happens anywhere. -/
theorem C9_negative_truncation :
    calculate_quantity negRule 5 = -(5:ℚ)/2
      ∧ calculate_quantity negRule 5 < 0
      ∧ (calculate_invoice [negRule] 5 "hydraulic").items.map
          (fun it => it.total_price) = [-2]
      ∧ (calculate_invoice [negRule] 5 "hydraulic").total_price = -2
      ∧ (calculate_invoice [negRule] 5 "hydraulic").total_price < 0
      ∧ ⌊calculate_quantity negRule 5 * (negRule.price : ℚ)⌋ = -3 := by
  have hq : calculate_quantity negRule 5 = -(5:ℚ)/2 := by
    rw [calculate_quantity_linear negRule 5 rfl]
    norm_num [negRule]
  have hqn : qneg = -(5:ℚ)/2 := by
    rw [show qneg = Rat.divInt (-5) 2 from Rat.mk'_eq_divInt]
    rw [Rat.divInt_eq_div]
    norm_num
  have hx : calculate_quantity negRule 5 * (negRule.price : ℚ) = qneg := by
    rw [hq, hqn]
    norm_num [negRule]
  have hred : calculate_invoice [negRule] 5 "hydraulic"
      = { items := [calc_item negRule 5]
        , total_price := 0 + (calc_item negRule 5).total_price } := rfl
  have htot : (calc_item negRule 5).total_price = -2 := by
    show pyInt (calculate_quantity negRule 5 * (negRule.price : ℚ)) = -2
    rw [hx]
    decide
  refine ⟨hq, by rw [hq]; norm_num, ?_, ?_, ?_, ?_⟩
  · rw [hred]
    simp [htot]
  · rw [hred]
    simp [htot]
  · rw [hred]
    simp [htot]
  · rw [hx, hqn]
    rw [Int.floor_eq_iff]
    norm_num

/-- C10: with a falsy `system_type` (`None` or `""`) the system filter is
omitted entirely: `get_products` returns the active, floor-matching rules of
every system, not only `common` ones and not the empty set. -/
theorem C10_falsy_system_type (catalog : List Product) (st : Option String)
    (is_active : Int) (floors : Option Int) (h : strTruthy st = false) :
    get_products catalog st is_active floors
      = catalog.filter (fun p =>
          (p.is_active == is_active)
          && (match floors with
              | none => true
              | some f =>
                (match p.min_floors with
                 | none => true
                 | some m => decide (m ≤ f))
                && (match p.max_floors with
                    | none => true
                    | some M => decide (f ≤ M)))) := by
  rw [get_products]
  refine List.filter_congr ?_
  intro p _
  simp only [product_matches, h, Bool.not_false, Bool.true_or, Bool.and_true]

/-- Witness for C10: with `system_type = None` a catalog holding a hydraulic,
a gearless and a common rule is returned whole. -/
theorem C10_falsy_system_type_witness :
    get_products [cableRule, gearRule, commonRule] none 1 (some 5)
      = [cableRule, gearRule, commonRule] :=
  (C10_falsy_system_type [cableRule, gearRule, commonRule] none 1 (some 5) rfl).trans
    rfl

end ElevatorBot
